import Mathlib

/-!
Verification of the `airhumidifier_jsqs.py` integration
(`AirHumidifierJsqs` / `AirHumidifierJsqsStatus` for the
`deerma.humidifier.jsq2w` / `deerma.humidifier.jsq2g` models).

The Python module is shallowly embedded: Python dicts become ordered
association lists with insert-or-overwrite semantics, dynamic property
values become the `Value` inductive, per-property results of a MIoT
batch become `PropertyResult`, dict subscripting that can raise
`KeyError` becomes `Except String`, and the facade's `set_property`
delegation is modelled by an abstract `Client` together with an explicit
trace of the SET calls issued.
-/

namespace JsqsModel

/-- A dynamic (wire-level) MIoT property value: Python bools and ints.
`Option Value` is used where Python `None` can appear. -/
inductive Value where
  | b (x : Bool)
  | i (x : Int)
  deriving DecidableEq, Repr

/-- A MIoT property reference: the `{"siid": _, "piid": _}` dict of the
mapping table. -/
structure PropertyRef where
  siid : Nat
  piid : Nat
  deriving DecidableEq, Repr

/-- Lookup in a Python dict modelled as an ordered association list:
first (and, after `dictInsert` construction, only) binding of the key. -/
def dictGet {α : Type} (d : List (String × α)) (k : String) : Option α :=
  match d with
  | [] => none
  | (k0, v0) :: rest => if k0 = k then some v0 else dictGet rest k

/-- Python dict assignment `d[k] = v`: overwrite in place if the key is
already bound (keeping its position), else append at the end. -/
def dictInsert {α : Type} (d : List (String × α)) (k : String) (v : α) :
    List (String × α) :=
  match d with
  | [] => [(k, v)]
  | (k0, v0) :: rest =>
      if k0 = k then (k0, v) :: rest else (k0, v0) :: dictInsert rest k v

/-- A Python dict literal is evaluated by successive assignments in
source order, so duplicate keys are overwritten. -/
def dictOfLiteral {α : Type} (entries : List (String × α)) : List (String × α) :=
  entries.foldl (fun d e => dictInsert d e.1 e.2) []

/-- The `_MAPPING` dict literal of `airhumidifier_jsqs.py`, in source
order, including the duplicate `overtop_humidity` key (siid 7 / piid 7
followed by siid 7 / piid 8). -/
def MAPPING_LITERAL : List (String × PropertyRef) :=
  [ ("power", ⟨2, 1⟩),
    ("fault", ⟨2, 2⟩),
    ("fan_level", ⟨2, 5⟩),
    ("target_humidity", ⟨2, 6⟩),
    ("status", ⟨2, 7⟩),
    ("mode", ⟨2, 8⟩),
    ("relative_humidity", ⟨3, 1⟩),
    ("temperature", ⟨3, 7⟩),
    ("buzzer", ⟨5, 1⟩),
    ("led_light", ⟨6, 1⟩),
    ("tank_filed", ⟨7, 1⟩),
    ("water_shortage_fault", ⟨7, 2⟩),
    ("humi_sensor_fault", ⟨7, 3⟩),
    ("temp_sensor_fault", ⟨7, 4⟩),
    ("overwet_protect", ⟨7, 5⟩),
    ("overwet_protect_on", ⟨7, 6⟩),
    ("overtop_humidity", ⟨7, 7⟩),
    ("overtop_humidity", ⟨7, 8⟩) ]

/-- The `_MAPPING` dict actually constructed by Python from the literal. -/
def MAPPING : List (String × PropertyRef) := dictOfLiteral MAPPING_LITERAL

/-- `SUPPORTED_MODELS` from the source. -/
def SUPPORTED_MODELS : List String :=
  ["deerma.humidifier.jsq2w", "deerma.humidifier.jsq2g"]

/-- `MIOT_MAPPING = {model: _MAPPING for model in SUPPORTED_MODELS}`. -/
def MIOT_MAPPING : List (String × List (String × PropertyRef)) :=
  dictOfLiteral (SUPPORTED_MODELS.map (fun m => (m, MAPPING)))

/-- The `OperationMode` enum. -/
inductive OperationMode where
  | Low
  | Mid
  | High
  | Auto
  deriving DecidableEq, Repr

/-- `OperationMode.value` in Python: the integer payload of each member. -/
def OperationMode.value : OperationMode → Int
  | .Low => 1
  | .Mid => 2
  | .High => 3
  | .Auto => 4

/-- Python enum lookup-by-value `OperationMode(v)`: `some` on success,
`none` when the lookup raises `ValueError`. Python compares by `==`, and
`True == 1` / `False == 0`, so a raw `True` also resolves to `Low`. -/
def opModeOfValue : Option Value → Option OperationMode
  | some (Value.i n) =>
      if n = 1 then some OperationMode.Low
      else if n = 2 then some OperationMode.Mid
      else if n = 3 then some OperationMode.High
      else if n = 4 then some OperationMode.Auto
      else none
  | some (Value.b x) => if x then some OperationMode.Low else none
  | none => none

/-- One element of the list returned by `get_properties_for_mapping()`:
the decoded per-property result `{"did": .., "value": .., "code": ..}`.
`value` is `none` when the device sent a JSON `null`. -/
structure PropertyResult where
  did : String
  value : Option Value
  code : Int
  deriving DecidableEq, Repr

/-- `prop["value"] if prop["code"] == 0 else None` for one result. -/
def projVal (p : PropertyResult) : Option Value :=
  if p.code = 0 then p.value else none

/-- The dict comprehension in `AirHumidifierJsqs.status`:
`{prop["did"]: prop["value"] if prop["code"] == 0 else None for prop in ...}`. -/
def statusData (batch : List PropertyResult) : List (String × Option Value) :=
  batch.foldl (fun d p => dictInsert d p.did (projVal p)) []

/-- The `AirHumidifierJsqsStatus` object: it stores the projected dict. -/
structure AirHumidifierJsqsStatus where
  data : List (String × Option Value)
  deriving DecidableEq, Repr

/-- `AirHumidifierJsqs.status`: the transport call
`get_properties_for_mapping()` either fails as a whole (left) or
delivers a batch of per-property results, which is projected into an
`AirHumidifierJsqsStatus`; the projection itself cannot fail. -/
def status (transport : Except String (List PropertyResult)) :
    Except String AirHumidifierJsqsStatus :=
  transport.map (fun batch => ⟨statusData batch⟩)

/-- Python dict subscript `d[k]`: raises `KeyError` when absent. -/
def subscript (d : List (String × Option Value)) (k : String) :
    Except String (Option Value) :=
  match dictGet d k with
  | some v => Except.ok v
  | none => Except.error "KeyError"

/-- Python `d.get(k)`: `None` both when the key is absent and when the
stored value is `None`. -/
def pyGet (d : List (String × Option Value)) (k : String) : Option Value :=
  (dictGet d k).bind id

/-- Python truthiness of an optional dynamic value, as used by
`"on" if self.is_on else "off"`. -/
def truthy : Option Value → Bool
  | none => false
  | some (Value.b x) => x
  | some (Value.i x) => x != 0

/-- `AirHumidifierJsqsStatus.is_on`: `self.data["power"]` (annotated
`bool` in the source, but it returns whatever is stored, including the
`None` that `status()` stores for an errored property). -/
def is_on (s : AirHumidifierJsqsStatus) : Except String (Option Value) :=
  subscript s.data "power"

/-- `AirHumidifierJsqsStatus.power`: `"on" if self.is_on else "off"`. -/
def power (s : AirHumidifierJsqsStatus) : Except String String :=
  (is_on s).map (fun v => if truthy v then "on" else "off")

/-- `AirHumidifierJsqsStatus.error`: `self.data["fault"]`. -/
def error (s : AirHumidifierJsqsStatus) : Except String (Option Value) :=
  subscript s.data "fault"

/-- `AirHumidifierJsqsStatus.fan_level`: `OperationMode(self.data["fan_level"])`,
falling back to `OperationMode.Auto` when the enum lookup raises
`ValueError`; the subscript itself can still raise `KeyError`. -/
def fan_level (s : AirHumidifierJsqsStatus) : Except String OperationMode :=
  (subscript s.data "fan_level").map (fun v =>
    match opModeOfValue v with
    | some m => m
    | none => OperationMode.Auto)

/-- Whether the `except ValueError` branch of `fan_level` ran, i.e.
whether `_LOGGER.exception("Cannot parse fan level: ...")` was recorded. -/
def fanLevelLogged (s : AirHumidifierJsqsStatus) : Except String Bool :=
  (subscript s.data "fan_level").map (fun v => (opModeOfValue v).isNone)

/-- `AirHumidifierJsqsStatus.target_humidity`: `self.data.get("target_humidity")`. -/
def target_humidity (s : AirHumidifierJsqsStatus) : Option Value :=
  pyGet s.data "target_humidity"

/-- `AirHumidifierJsqsStatus.relative_humidity`. -/
def relative_humidity (s : AirHumidifierJsqsStatus) : Option Value :=
  pyGet s.data "relative_humidity"

/-- `AirHumidifierJsqsStatus.temperature`. -/
def temperature (s : AirHumidifierJsqsStatus) : Option Value :=
  pyGet s.data "temperature"

/-- `AirHumidifierJsqsStatus.buzzer`. -/
def buzzer (s : AirHumidifierJsqsStatus) : Option Value :=
  pyGet s.data "buzzer"

/-- `AirHumidifierJsqsStatus.led_light`. -/
def led_light (s : AirHumidifierJsqsStatus) : Option Value :=
  pyGet s.data "led_light"

/-- `AirHumidifierJsqsStatus.tank_filed`. -/
def tank_filed (s : AirHumidifierJsqsStatus) : Option Value :=
  pyGet s.data "tank_filed"

/-- `AirHumidifierJsqsStatus.water_shortage_fault`. -/
def water_shortage_fault (s : AirHumidifierJsqsStatus) : Option Value :=
  pyGet s.data "water_shortage_fault"

/-- `AirHumidifierJsqsStatus.humi_sensor_fault`. -/
def humi_sensor_fault (s : AirHumidifierJsqsStatus) : Option Value :=
  pyGet s.data "humi_sensor_fault"

/-- `AirHumidifierJsqsStatus.overwet_protect`. -/
def overwet_protect (s : AirHumidifierJsqsStatus) : Option Value :=
  pyGet s.data "overwet_protect"

/-- `AirHumidifierJsqsStatus.overwet_protect_on`. -/
def overwet_protect_on (s : AirHumidifierJsqsStatus) : Option Value :=
  pyGet s.data "overwet_protect_on"

/-- `AirHumidifierJsqsStatus.overtop_humidity`. -/
def overtop_humidity (s : AirHumidifierJsqsStatus) : Option Value :=
  pyGet s.data "overtop_humidity"

/-- `AirHumidifierJsqsStatus.temp_sensor_fault`. -/
def temp_sensor_fault (s : AirHumidifierJsqsStatus) : Option Value :=
  pyGet s.data "temp_sensor_fault"

/-- One transport-level call issued by a facade operation. -/
inductive Call where
  | setProp (name : String) (value : Value)
  deriving DecidableEq, Repr

/-- The abstract MIoT client underneath the facade: `set_property` takes
a symbolic name and a value and either returns a result `R` or raises a
client/transport error `E`. -/
structure Client (E R : Type) where
  set : String → Value → Except E R

/-- The outcome of a facade operation that validates its argument before
delegating: either the validation `ValueError` or the client's outcome. -/
inductive OpError (E : Type) where
  | valueError (msg : String)
  | client (e : E)
  deriving DecidableEq, Repr

/-- `return self.set_property(name, value)`: records exactly one SET
call and returns the client's own result. -/
def callSet {E R : Type} (c : Client E R) (n : String) (v : Value) :
    List Call × Except E R :=
  ([Call.setProp n v], c.set n v)

/-- `AirHumidifierJsqs.on`. -/
def «on» {E R : Type} (c : Client E R) : List Call × Except E R :=
  callSet c "power" (Value.b true)

/-- `AirHumidifierJsqs.off`. -/
def off {E R : Type} (c : Client E R) : List Call × Except E R :=
  callSet c "power" (Value.b false)

/-- `AirHumidifierJsqs.set_target_humidity`: raises
`ValueError("Invalid target humidity: %s. Must be between 40 and 70")`
when `humidity <= 40 or humidity >= 70`, else delegates. -/
def set_target_humidity {E R : Type} (c : Client E R) (humidity : Int) :
    List Call × Except (OpError E) R :=
  if humidity ≤ 40 ∨ humidity ≥ 70 then
    ([], Except.error (OpError.valueError
      ("Invalid target humidity: " ++ toString humidity ++
        ". Must be between 40 and 70")))
  else
    ((callSet c "target_humidity" (Value.i humidity)).1,
      (callSet c "target_humidity" (Value.i humidity)).2.mapError OpError.client)

/-- `AirHumidifierJsqs.set_fan_level`. -/
def set_fan_level {E R : Type} (c : Client E R) (m : OperationMode) :
    List Call × Except E R :=
  callSet c "fan_level" (Value.i m.value)

/-- `AirHumidifierJsqs.set_light`. -/
def set_light {E R : Type} (c : Client E R) (light : Bool) :
    List Call × Except E R :=
  callSet c "led_light" (Value.b light)

/-- `AirHumidifierJsqs.set_buzzer`. -/
def set_buzzer {E R : Type} (c : Client E R) (x : Bool) :
    List Call × Except E R :=
  callSet c "buzzer" (Value.b x)

/-- `AirHumidifierJsqs.set_overwet_protect`. -/
def set_overwet_protect {E R : Type} (c : Client E R) (overwet : Bool) :
    List Call × Except E R :=
  callSet c "overwet_protect" (Value.b overwet)

/-- `AirHumidifierJsqs.set_overwet_protect_on`. -/
def set_overwet_protect_on {E R : Type} (c : Client E R) (x : Bool) :
    List Call × Except E R :=
  callSet c "overwet_protect_on" (Value.b x)

/-- The symbolic names referenced by the facade's SET operations. -/
def facadeSetNames : List String :=
  ["power", "target_humidity", "fan_level", "led_light", "buzzer",
    "overwet_protect", "overwet_protect_on"]

/-- A trivial concrete client used by witnesses and counterexamples. -/
def testClient : Client Unit Unit := ⟨fun _ _ => Except.ok ()⟩

/-- `statusData` generalized over the accumulator, to state fold lemmas. -/
def statusDataFrom (d : List (String × Option Value))
    (batch : List PropertyResult) : List (String × Option Value) :=
  batch.foldl (fun d p => dictInsert d p.did (projVal p)) d

/-- The shape of the batch that `get_properties_for_mapping()` delivers
on a successful round-trip: one result per entry of the configured
mapping, keyed by the symbolic name, with arbitrary per-property values
and error codes. -/
def fullBatch (value : String → Option Value) (code : String → Int) :
    List PropertyResult :=
  MAPPING.map (fun e => ⟨e.1, value e.1, code e.1⟩)

theorem statusData_eq_from (batch : List PropertyResult) :
    statusData batch = statusDataFrom [] batch := rfl

theorem statusDataFrom_nil (d : List (String × Option Value)) :
    statusDataFrom d [] = d := rfl

theorem statusDataFrom_cons (d : List (String × Option Value))
    (p : PropertyResult) (rest : List PropertyResult) :
    statusDataFrom d (p :: rest) =
      statusDataFrom (dictInsert d p.did (projVal p)) rest := rfl

/-- Looking a key up after a dict assignment: the assigned value for the
assigned key, the old binding for every other key. -/
theorem dictGet_dictInsert {α : Type} (d : List (String × α)) (k k' : String)
    (v : α) :
    dictGet (dictInsert d k v) k' = if k = k' then some v else dictGet d k' := by
  induction d with
  | nil =>
      by_cases h : k = k' <;> simp [dictInsert, dictGet, h]
  | cons e rest ih =>
      obtain ⟨k0, v0⟩ := e
      by_cases h0 : k0 = k
      · subst h0
        by_cases h : k0 = k' <;> simp [dictInsert, dictGet, h]
      · by_cases h : k0 = k'
        · subst h
          have hk : ¬ k = k0 := fun hkk => h0 hkk.symm
          simp [dictInsert, dictGet, h0, hk]
        · simp [dictInsert, dictGet, h0, h, ih]

/-- Folding results whose dids all differ from `k` leaves `k`'s binding
unchanged. -/
theorem statusDataFrom_not_mem (batch : List PropertyResult)
    (d : List (String × Option Value)) (k : String)
    (h : ∀ p ∈ batch, p.did ≠ k) :
    dictGet (statusDataFrom d batch) k = dictGet d k := by
  induction batch generalizing d with
  | nil => rfl
  | cons q rest ih =>
      rw [statusDataFrom_cons, ih _ (fun p hp => h p (List.mem_cons_of_mem q hp)),
        dictGet_dictInsert]
      simp [h q (List.mem_cons_self q rest)]

/-- Projection lemma: in a batch with pairwise-distinct dids, the
projected dict maps each result's did to
`value if code == 0 else None`. -/
theorem statusDataFrom_lookup (batch : List PropertyResult)
    (d : List (String × Option Value)) (p : PropertyResult) (hp : p ∈ batch)
    (hnd : batch.Pairwise (fun a b => a.did ≠ b.did)) :
    dictGet (statusDataFrom d batch) p.did = some (projVal p) := by
  induction batch generalizing d with
  | nil => cases hp
  | cons q rest ih =>
      rw [List.pairwise_cons] at hnd
      rcases List.mem_cons.mp hp with h | h
      · subst h
        rw [statusDataFrom_cons,
          statusDataFrom_not_mem rest _ p.did
            (fun r hr => (hnd.1 r hr).symm),
          dictGet_dictInsert]
        simp
      · exact ih _ h hnd.2

/-- Same, for `statusData` itself. -/
theorem statusData_lookup (batch : List PropertyResult) (p : PropertyResult)
    (hp : p ∈ batch) (hnd : batch.Pairwise (fun a b => a.did ≠ b.did)) :
    dictGet (statusData batch) p.did = some (projVal p) := by
  rw [statusData_eq_from]
  exact statusDataFrom_lookup batch [] p hp hnd

/-- Folding more results never removes a binding. -/
theorem statusDataFrom_isSome (batch : List PropertyResult)
    (d : List (String × Option Value)) (k : String)
    (h : (dictGet d k).isSome = true ∨ ∃ p ∈ batch, p.did = k) :
    (dictGet (statusDataFrom d batch) k).isSome = true := by
  induction batch generalizing d with
  | nil =>
      rcases h with h | ⟨p, hp, _⟩
      · exact h
      · cases hp
  | cons q rest ih =>
      rw [statusDataFrom_cons]
      apply ih
      rcases h with h | ⟨p, hp, hk⟩
      · left
        rw [dictGet_dictInsert]
        by_cases hq : q.did = k <;> simp [hq, h]
      · rcases List.mem_cons.mp hp with hh | hh
        · left
          subst hh
          rw [dictGet_dictInsert, if_pos hk]
          rfl
        · exact Or.inr ⟨p, hh, hk⟩

/-- A present binding makes the Python subscript succeed. -/
theorem subscript_ok_of_isSome (d : List (String × Option Value)) (k : String)
    (h : (dictGet d k).isSome = true) : ∃ v, subscript d k = Except.ok v := by
  obtain ⟨v, hv⟩ := Option.isSome_iff_exists.mp h
  exact ⟨v, by simp [subscript, hv]⟩

/-- `d.get(k)` returns `None` when the stored value is `None`. -/
theorem pyGet_none_of_lookup (d : List (String × Option Value)) (k : String)
    (h : dictGet d k = some none) : pyGet d k = none := by
  simp [pyGet, h]

/-- `d.get(k)` returns the stored value when it is present and non-`None`. -/
theorem pyGet_some_of_lookup (d : List (String × Option Value)) (k : String)
    (v : Value) (h : dictGet d k = some (some v)) : pyGet d k = some v := by
  simp [pyGet, h]

/-- C2: `set_target_humidity(39)` and `set_target_humidity(71)` raise
`ValueError` and issue no SET call, whatever the client; with argument
55 no error is raised and exactly one SET call for `target_humidity`
with value 55 is issued, whose client outcome is returned. -/
theorem set_target_humidity_39_71_55 {E R : Type} (c : Client E R) :
    set_target_humidity c 39 =
      ([], Except.error (OpError.valueError
        "Invalid target humidity: 39. Must be between 40 and 70")) ∧
    set_target_humidity c 71 =
      ([], Except.error (OpError.valueError
        "Invalid target humidity: 71. Must be between 40 and 70")) ∧
    set_target_humidity c 55 =
      ([Call.setProp "target_humidity" (Value.i 55)],
        (c.set "target_humidity" (Value.i 55)).mapError OpError.client) :=
  ⟨rfl, rfl, rfl⟩

/-- C3, counterexample: contrary to the claimed inclusive-exclusive
range `[40, 80)`, the argument 40 is rejected by the validation guard
`humidity <= 40 or humidity >= 70` and no SET call is issued. -/
theorem set_target_humidity_rejects_40 :
    set_target_humidity testClient 40 =
      ([], Except.error (OpError.valueError
        "Invalid target humidity: 40. Must be between 40 and 70")) := rfl

/-- C3, amended: validation accepts exactly the integers with
`40 < humidity < 70`, delegating with one SET call, and rejects every
integer with `humidity ≤ 40` or `humidity ≥ 70` with a `ValueError`
citing the range 40..70, issuing no call. -/
theorem set_target_humidity_validation {E R : Type} (c : Client E R)
    (humidity : Int) :
    (humidity ≤ 40 ∨ humidity ≥ 70 →
      set_target_humidity c humidity =
        ([], Except.error (OpError.valueError
          ("Invalid target humidity: " ++ toString humidity ++
            ". Must be between 40 and 70")))) ∧
    (40 < humidity → humidity < 70 →
      set_target_humidity c humidity =
        ([Call.setProp "target_humidity" (Value.i humidity)],
          (c.set "target_humidity" (Value.i humidity)).mapError
            OpError.client)) := by
  constructor
  · intro h
    rw [set_target_humidity, if_pos h]
  · intro h1 h2
    rw [set_target_humidity, if_neg (by omega)]
    rfl

/-- Witness for `set_target_humidity_validation` at 40 and 55. -/
theorem set_target_humidity_validation_witness :
    set_target_humidity testClient 40 =
      ([], Except.error (OpError.valueError
        ("Invalid target humidity: " ++ toString (40 : Int) ++
          ". Must be between 40 and 70"))) ∧
    set_target_humidity testClient 55 =
      ([Call.setProp "target_humidity" (Value.i 55)],
        (testClient.set "target_humidity" (Value.i 55)).mapError
          OpError.client) :=
  ⟨(set_target_humidity_validation testClient 40).1 (Or.inl (by decide)),
    (set_target_humidity_validation testClient 55).2 (by decide) (by decide)⟩

/-- C6: for both supported models, every symbolic name used by a facade
SET operation resolves to a PropertyRef in that model's entry of
`MIOT_MAPPING`. -/
theorem facade_names_resolve_for_supported_models :
    ∀ model ∈ SUPPORTED_MODELS, ∀ name ∈ facadeSetNames,
      (dictGet MIOT_MAPPING model).map (fun t => (dictGet t name).isSome) =
        some true := by decide

/-- Witness for `facade_names_resolve_for_supported_models` at the
jsq2g model and the `fan_level` name. -/
theorem facade_names_resolve_witness :
    (dictGet MIOT_MAPPING "deerma.humidifier.jsq2g").map
        (fun t => (dictGet t "fan_level").isSome) = some true :=
  facade_names_resolve_for_supported_models "deerma.humidifier.jsq2g"
    (by decide) "fan_level" (by decide)

/-- C8: every facade SET operation issues exactly one SET call for its
symbolic property with the delegated value, and returns the client's
own outcome unchanged. -/
theorem set_operations_delegate_once {E R : Type} (c : Client E R) (x : Bool)
    (m : OperationMode) :
    «on» c = ([Call.setProp "power" (Value.b true)],
      c.set "power" (Value.b true)) ∧
    off c = ([Call.setProp "power" (Value.b false)],
      c.set "power" (Value.b false)) ∧
    set_light c x = ([Call.setProp "led_light" (Value.b x)],
      c.set "led_light" (Value.b x)) ∧
    set_buzzer c x = ([Call.setProp "buzzer" (Value.b x)],
      c.set "buzzer" (Value.b x)) ∧
    set_overwet_protect c x = ([Call.setProp "overwet_protect" (Value.b x)],
      c.set "overwet_protect" (Value.b x)) ∧
    set_overwet_protect_on c x =
      ([Call.setProp "overwet_protect_on" (Value.b x)],
        c.set "overwet_protect_on" (Value.b x)) ∧
    set_fan_level c m = ([Call.setProp "fan_level" (Value.i m.value)],
      c.set "fan_level" (Value.i m.value)) :=
  ⟨rfl, rfl, rfl, rfl, rfl, rfl, rfl⟩

/-- C9: the `_MAPPING` literal binds `overtop_humidity` twice (to
siid 7 / piid 7 and then siid 7 / piid 8); the constructed dict holds a
single `overtop_humidity` entry resolving to siid 7 / piid 8, and the
PropertyRef siid 7 / piid 7 appears nowhere in the constructed mapping,
hence in no status request. -/
theorem overtop_humidity_duplicate_key :
    (MAPPING_LITERAL.filter
        (fun e => e.1 = "overtop_humidity")).map Prod.snd =
      [⟨7, 7⟩, ⟨7, 8⟩] ∧
    (MAPPING.filter (fun e => e.1 = "overtop_humidity")).length = 1 ∧
    dictGet MAPPING "overtop_humidity" = some ⟨7, 8⟩ ∧
    PropertyRef.mk 7 7 ∉ MAPPING.map Prod.snd := by decide

/-- C1, counterexample: in a batch where `fan_level` and `power` carry
error code 1, the `fan_level` accessor returns the real enum value
`OperationMode.Auto` and the `power` accessor returns the real string
`"off"` — not the `None` unavailability sentinel the claim requires of
every accessor. -/
theorem errored_fan_level_and_power_not_none :
    fan_level ⟨statusData [⟨"fan_level", some (Value.i 2), 1⟩,
      ⟨"power", some (Value.b true), 1⟩]⟩ = Except.ok OperationMode.Auto ∧
    power ⟨statusData [⟨"fan_level", some (Value.i 2), 1⟩,
      ⟨"power", some (Value.b true), 1⟩]⟩ = Except.ok "off" := ⟨rfl, rfl⟩

/-- C1, amended: for a property with non-zero error code in a batch of
pairwise-distinct dids, the `.get`-backed accessors, `error` and
`is_on` return the `None` sentinel and nothing raises; but `fan_level`
instead falls back to the real value `OperationMode.Auto` (logging a
diagnostic) and `power` renders the real string `"off"`. -/
theorem errored_properties_sentinel_or_fallback (batch : List PropertyResult)
    (hnd : batch.Pairwise (fun a b => a.did ≠ b.did)) (p : PropertyResult)
    (hp : p ∈ batch) (hc : p.code ≠ 0) :
    (p.did = "target_humidity" →
      target_humidity ⟨statusData batch⟩ = none) ∧
    (p.did = "relative_humidity" →
      relative_humidity ⟨statusData batch⟩ = none) ∧
    (p.did = "temperature" → temperature ⟨statusData batch⟩ = none) ∧
    (p.did = "buzzer" → buzzer ⟨statusData batch⟩ = none) ∧
    (p.did = "led_light" → led_light ⟨statusData batch⟩ = none) ∧
    (p.did = "tank_filed" → tank_filed ⟨statusData batch⟩ = none) ∧
    (p.did = "water_shortage_fault" →
      water_shortage_fault ⟨statusData batch⟩ = none) ∧
    (p.did = "humi_sensor_fault" →
      humi_sensor_fault ⟨statusData batch⟩ = none) ∧
    (p.did = "temp_sensor_fault" →
      temp_sensor_fault ⟨statusData batch⟩ = none) ∧
    (p.did = "overwet_protect" →
      overwet_protect ⟨statusData batch⟩ = none) ∧
    (p.did = "overwet_protect_on" →
      overwet_protect_on ⟨statusData batch⟩ = none) ∧
    (p.did = "overtop_humidity" →
      overtop_humidity ⟨statusData batch⟩ = none) ∧
    (p.did = "fault" → error ⟨statusData batch⟩ = Except.ok none) ∧
    (p.did = "power" → is_on ⟨statusData batch⟩ = Except.ok none ∧
      power ⟨statusData batch⟩ = Except.ok "off") ∧
    (p.did = "fan_level" →
      fan_level ⟨statusData batch⟩ = Except.ok OperationMode.Auto ∧
      fanLevelLogged ⟨statusData batch⟩ = Except.ok true) := by
  have hlook : dictGet (statusData batch) p.did = some none := by
    have h := statusData_lookup batch p hp hnd
    rwa [projVal, if_neg hc] at h
  refine ⟨?_, ?_, ?_, ?_, ?_, ?_, ?_, ?_, ?_, ?_, ?_, ?_, ?_, ?_, ?_⟩ <;>
    intro h <;> rw [h] at hlook
  · simp [target_humidity, pyGet, hlook]
  · simp [relative_humidity, pyGet, hlook]
  · simp [temperature, pyGet, hlook]
  · simp [buzzer, pyGet, hlook]
  · simp [led_light, pyGet, hlook]
  · simp [tank_filed, pyGet, hlook]
  · simp [water_shortage_fault, pyGet, hlook]
  · simp [humi_sensor_fault, pyGet, hlook]
  · simp [temp_sensor_fault, pyGet, hlook]
  · simp [overwet_protect, pyGet, hlook]
  · simp [overwet_protect_on, pyGet, hlook]
  · simp [overtop_humidity, pyGet, hlook]
  · simp [error, subscript, hlook]
  · exact ⟨by simp [is_on, subscript, hlook],
      by simp [power, is_on, subscript, hlook, truthy, Except.map]⟩
  · exact ⟨by simp [fan_level, subscript, hlook, opModeOfValue, Except.map],
      by simp [fanLevelLogged, subscript, hlook, opModeOfValue, Except.map]⟩

/-- Witness for `errored_properties_sentinel_or_fallback`: an errored
`target_humidity` reads back as the `None` sentinel. -/
theorem errored_properties_sentinel_or_fallback_witness :
    target_humidity
      ⟨statusData [⟨"target_humidity", some (Value.i 50), 1⟩]⟩ = none :=
  (errored_properties_sentinel_or_fallback
    [⟨"target_humidity", some (Value.i 50), 1⟩] (by decide)
    ⟨"target_humidity", some (Value.i 50), 1⟩ (by decide) (by decide)).1 rfl

/-- C4: a raw integer fan level outside `{1,2,3,4}` stored with error
code 0 makes the `fan_level` accessor return the fallback
`OperationMode.Auto` without raising, and the `except ValueError`
diagnostic branch is recorded. -/
theorem fan_level_out_of_range_fallback (batch : List PropertyResult)
    (hnd : batch.Pairwise (fun a b => a.did ≠ b.did)) (p : PropertyResult)
    (hp : p ∈ batch) (hdid : p.did = "fan_level") (n : Int)
    (hv : p.value = some (Value.i n)) (h0 : p.code = 0) (hn1 : n ≠ 1)
    (hn2 : n ≠ 2) (hn3 : n ≠ 3) (hn4 : n ≠ 4) :
    fan_level ⟨statusData batch⟩ = Except.ok OperationMode.Auto ∧
    fanLevelLogged ⟨statusData batch⟩ = Except.ok true := by
  have hlook : dictGet (statusData batch) "fan_level" =
      some (some (Value.i n)) := by
    have h := statusData_lookup batch p hp hnd
    rw [hdid] at h
    rwa [projVal, if_pos h0, hv] at h
  exact ⟨by simp [fan_level, subscript, hlook, opModeOfValue, hn1, hn2, hn3,
      hn4, Except.map],
    by simp [fanLevelLogged, subscript, hlook, opModeOfValue, hn1, hn2, hn3,
      hn4, Except.map]⟩

/-- Witness for `fan_level_out_of_range_fallback` at raw value 9. -/
theorem fan_level_out_of_range_fallback_witness :
    fan_level ⟨statusData [⟨"fan_level", some (Value.i 9), 0⟩]⟩ =
      Except.ok OperationMode.Auto ∧
    fanLevelLogged ⟨statusData [⟨"fan_level", some (Value.i 9), 0⟩]⟩ =
      Except.ok true :=
  fan_level_out_of_range_fallback [⟨"fan_level", some (Value.i 9), 0⟩]
    (by decide) ⟨"fan_level", some (Value.i 9), 0⟩ (by decide) rfl 9 rfl rfl
    (by decide) (by decide) (by decide) (by decide)

/-- C5: a property delivered with error code 0 and value `V` reads back
unchanged from the corresponding accessor — no unit conversion — for
`target_humidity`, `relative_humidity`, `temperature`, `buzzer`,
`led_light` and `tank_filed`. -/
theorem status_roundtrip_ok_values (batch : List PropertyResult)
    (hnd : batch.Pairwise (fun a b => a.did ≠ b.did)) (p : PropertyResult)
    (hp : p ∈ batch) (h0 : p.code = 0) (V : Value)
    (hv : p.value = some V) :
    (p.did = "target_humidity" →
      target_humidity ⟨statusData batch⟩ = some V) ∧
    (p.did = "relative_humidity" →
      relative_humidity ⟨statusData batch⟩ = some V) ∧
    (p.did = "temperature" → temperature ⟨statusData batch⟩ = some V) ∧
    (p.did = "buzzer" → buzzer ⟨statusData batch⟩ = some V) ∧
    (p.did = "led_light" → led_light ⟨statusData batch⟩ = some V) ∧
    (p.did = "tank_filed" → tank_filed ⟨statusData batch⟩ = some V) := by
  have hlook : dictGet (statusData batch) p.did = some (some V) := by
    have h := statusData_lookup batch p hp hnd
    rwa [projVal, if_pos h0, hv] at h
  refine ⟨?_, ?_, ?_, ?_, ?_, ?_⟩ <;> intro h <;> rw [h] at hlook
  · simp [target_humidity, pyGet, hlook]
  · simp [relative_humidity, pyGet, hlook]
  · simp [temperature, pyGet, hlook]
  · simp [buzzer, pyGet, hlook]
  · simp [led_light, pyGet, hlook]
  · simp [tank_filed, pyGet, hlook]

/-- Witness for `status_roundtrip_ok_values`: target humidity 55
delivered with code 0 reads back as 55. -/
theorem status_roundtrip_ok_values_witness :
    target_humidity
      ⟨statusData [⟨"target_humidity", some (Value.i 55), 0⟩]⟩ =
      some (Value.i 55) :=
  (status_roundtrip_ok_values [⟨"target_humidity", some (Value.i 55), 0⟩]
    (by decide) ⟨"target_humidity", some (Value.i 55), 0⟩ (by decide) rfl
    (Value.i 55) rfl).1 rfl

/-- C7: `status()` succeeds on every delivered batch — whatever the
per-property error codes — projecting it unchanged, and fails exactly
when the transport call fails as a whole; on a full-mapping batch with
arbitrary values and codes every subscript-based accessor still
answers. -/
theorem status_total_on_batches :
    (∀ batch : List PropertyResult,
      status (Except.ok batch) = Except.ok ⟨statusData batch⟩) ∧
    (∀ e : String, status (Except.error e) = Except.error e) ∧
    (∀ value : String → Option Value, ∀ code : String → Int,
      (∃ v, is_on ⟨statusData (fullBatch value code)⟩ = Except.ok v) ∧
      (∃ v, power ⟨statusData (fullBatch value code)⟩ = Except.ok v) ∧
      (∃ v, error ⟨statusData (fullBatch value code)⟩ = Except.ok v) ∧
      (∃ v, fan_level ⟨statusData (fullBatch value code)⟩ = Except.ok v) ∧
      (∃ v, fanLevelLogged ⟨statusData (fullBatch value code)⟩ =
        Except.ok v)) := by
  refine ⟨fun batch => rfl, fun e => rfl, fun v c => ?_⟩
  have hs : ∀ name : String, (∃ r, (name, r) ∈ MAPPING) →
      (dictGet (statusData (fullBatch v c)) name).isSome = true := by
    rintro name ⟨r, hr⟩
    rw [statusData_eq_from]
    apply statusDataFrom_isSome
    exact Or.inr ⟨⟨name, v name, c name⟩,
      List.mem_map.mpr ⟨(name, r), hr, rfl⟩, rfl⟩
  obtain ⟨w1, hw1⟩ := subscript_ok_of_isSome _ "power"
    (hs "power" ⟨⟨2, 1⟩, by decide⟩)
  obtain ⟨w2, hw2⟩ := subscript_ok_of_isSome _ "fault"
    (hs "fault" ⟨⟨2, 2⟩, by decide⟩)
  obtain ⟨w3, hw3⟩ := subscript_ok_of_isSome _ "fan_level"
    (hs "fan_level" ⟨⟨2, 5⟩, by decide⟩)
  refine ⟨⟨w1, ?_⟩, ⟨if truthy w1 then "on" else "off", ?_⟩, ⟨w2, ?_⟩,
    ⟨match opModeOfValue w3 with
      | some m => m
      | none => OperationMode.Auto, ?_⟩,
    ⟨(opModeOfValue w3).isNone, ?_⟩⟩
  · simp only [is_on]
    exact hw1
  · simp only [power, is_on]
    rw [hw1]
    rfl
  · simp only [error]
    exact hw2
  · simp only [fan_level]
    rw [hw3]
    rfl
  · simp only [fanLevelLogged]
    rw [hw3]
    rfl

/-- C10: when the `power` property arrives with a non-zero error code,
`is_on` returns the `None` sentinel rather than a bool, and `power`
renders the device as the string `"off"`, indistinguishable from a
device that is switched off. -/
theorem errored_power_reads_off (batch : List PropertyResult)
    (hnd : batch.Pairwise (fun a b => a.did ≠ b.did)) (p : PropertyResult)
    (hp : p ∈ batch) (hdid : p.did = "power") (hc : p.code ≠ 0) :
    is_on ⟨statusData batch⟩ = Except.ok none ∧
    power ⟨statusData batch⟩ = Except.ok "off" := by
  have hlook : dictGet (statusData batch) "power" = some none := by
    have h := statusData_lookup batch p hp hnd
    rw [hdid] at h
    rwa [projVal, if_neg hc] at h
  exact ⟨by simp [is_on, subscript, hlook],
    by simp [power, is_on, subscript, hlook, truthy, Except.map]⟩

/-- Witness for `errored_power_reads_off`. -/
theorem errored_power_reads_off_witness :
    is_on ⟨statusData [⟨"power", some (Value.b true), 1⟩]⟩ =
      Except.ok none ∧
    power ⟨statusData [⟨"power", some (Value.b true), 1⟩]⟩ =
      Except.ok "off" :=
  errored_power_reads_off [⟨"power", some (Value.b true), 1⟩] (by decide)
    ⟨"power", some (Value.b true), 1⟩ (by decide) rfl (by decide)

end JsqsModel
